import Mathlib

/-!
Shallow embedding of the Total-Chaos-UNO engine (card.py, deck.py, move.py,
rule.py, rule_cards.py, rule_slot.py, game.py) and proofs about the frozen
claims.  Python machine behaviour is modelled explicitly: fallible code runs
in `Except PyErr`, Python `int` is `Int`/`Nat`, Python `float` multipliers are
`Rat` (the program only ever uses dyadic values 1, 0.5, 2 and their
products), Python `%` on ints is `Int.emod`, and Python negative list
indexing / slicing is spelled out in `pyGetE`, `pySetE`, `pySliceFrom`.
-/

/-- The Python exception kinds the embedded code can raise. -/
inductive PyErr where
  | attributeError
  | typeError
  | indexError
  | valueError
  | keyError
  deriving DecidableEq, Repr

/-- card.py `CardColor`: display colour plus a name; `__eq__` and `__str__`
compare and print the name only. -/
structure CardColor where
  name : String
  hex : String
  deriving DecidableEq, Repr

/-- card.py `CardType`: name plus action flags, field order as in
`CardType.__init__`. -/
structure CardType where
  name : String
  drawAmount : Nat
  isWild : Bool
  isSkip : Bool
  isReverse : Bool
  deriving DecidableEq, Repr

/-- card.py `Card`: colour, type, and the set of rule-addition counts
(`Card.__init__` converts the `ruleAdditions` argument to a Python set of
ints; we embed the converted set). -/
structure Card where
  color : CardColor
  type : CardType
  ruleAdditions : Finset Nat
  deriving DecidableEq

/-- The value `Card.__and__` returns: Python `or` yields either the boolean
`self.color == other.color` (when it is `True`) or the raw value of
`self.type and other.type`. -/
inductive PyAndResult where
  | bool (b : Bool)
  | cardType (t : CardType)
  deriving DecidableEq, Repr

/-- card.py `Card.__and__` (line 172): `self.color == other.color or
(self.type and other.type)`.  `CardColor.__eq__` compares names.  The second
operand uses the Python keyword `and`, not the `&` operator, so
`CardType.__and__` is never consulted: `self.type` is an always-truthy
object, hence `self.type and other.type` evaluates to `other.type`. -/
def cardAnd (a b : Card) : PyAndResult :=
  if a.color.name == b.color.name then .bool true else .cardType b.type

/-- Truthiness of a `Card.__and__` result, as Python evaluates it in a
boolean context. -/
def PyAndResult.truthy : PyAndResult → Bool
  | .bool b => b
  | .cardType _ => true

/-- Modelled from the spec (claim C1 wording): two cards are compatible iff
they share a colour, share a type, or either is wild.  This is the
specification-side relation, kept separate from the source-side `cardAnd`
for the refinement comparison. -/
def compatSpec (a b : Card) : Bool :=
  a.color.name == b.color.name || a.type.name == b.type.name ||
    a.type.isWild || b.type.isWild

/-- A concrete red number-3 card. -/
def cardRedThree : Card :=
  ⟨⟨"red", "#e00000"⟩, ⟨"3", 0, false, false, false⟩, {0}⟩

/-- A concrete blue number-5 card. -/
def cardBlue5 : Card :=
  ⟨⟨"blue", "#0060ff"⟩, ⟨"5", 0, false, false, false⟩, {0}⟩

/-- A concrete red draw-2 card (drawAmount 2, isSkip). -/
def cardRedDraw2 : Card :=
  ⟨⟨"red", "#e00000"⟩, ⟨"draw 2", 2, false, true, false⟩, {0}⟩

/-- A concrete red number-5 card. -/
def cardRedFive : Card :=
  ⟨⟨"red", "#e00000"⟩, ⟨"5", 0, false, false, false⟩, {0}⟩

/-- A concrete green number-7 card. -/
def cardGreen7 : Card :=
  ⟨⟨"green", "#00e000"⟩, ⟨"7", 0, false, false, false⟩, {0}⟩

/- ------------------------------------------------------------------
Python container helpers
------------------------------------------------------------------ -/

/-- Python `l[i]` on a list: a negative index counts from the end, an index
out of `[-len, len)` raises `IndexError`. -/
def pyGetE (l : List α) (i : Int) : Except PyErr α :=
  let j := if i < 0 then i + (l.length : Int) else i
  if j < 0 then .error .indexError
  else
    match l.get? j.toNat with
    | some a => .ok a
    | none => .error .indexError

/-- Python `l[i] = v` on a list, same index semantics as `pyGetE`. -/
def pySetE (l : List α) (i : Int) (v : α) : Except PyErr (List α) :=
  let j := if i < 0 then i + (l.length : Int) else i
  if j < 0 then .error .indexError
  else if j < (l.length : Int) then .ok (l.set j.toNat v)
  else .error .indexError

/-- Python `l[s:]`: a negative start counts from the end and clamps at 0, a
start past the end yields the empty list. -/
def pySliceFrom (l : List α) (s : Int) : List α :=
  if s < 0 then l.drop ((l.length : Int) + s).toNat else l.drop s.toNat

/-- Python `range(start, stop, step)` for `step = 1` or `step = -1` — the
only steps the source uses (`Game.cycle_hands` passes `-direction` with
`direction` in `{+1, -1}`; a zero step would raise `ValueError` in Python
and is unreachable here). -/
def pyRange1 (start stop step : Int) : List Int :=
  if step = 1 then (List.range (stop - start).toNat).map (fun k => start + k)
  else if step = -1 then (List.range (start - stop).toNat).map (fun k => start - k)
  else []

/-- Python `str.isdigit` for the ASCII names this program uses. -/
def pyIsDigit (s : String) : Bool :=
  !s.isEmpty && s.data.all Char.isDigit

/-- Python `int(s)` for the digit strings this program applies it to
(guarded by `isdigit` at every call site). -/
def pyStrToInt (s : String) : Int :=
  ((s.toNat?).getD 0 : Nat)

/- ------------------------------------------------------------------
card.py: Card construction (Card.__init__, set_color, set_type)
------------------------------------------------------------------ -/

/-- card.py `Card.COLORS`: the fixed colour catalogue. -/
def COLORS : List (String × CardColor) :=
  [("wild", ⟨"wild", "#111111"⟩),
   ("red", ⟨"red", "#e00000"⟩),
   ("yellow", ⟨"yellow", "#ffe000"⟩),
   ("green", ⟨"green", "#00e000"⟩),
   ("blue", ⟨"blue", "#0060ff"⟩)]

/-- card.py `Card.ACTION_CARDS`: the fixed action-type catalogue, fields in
`CardType.__init__` order (name, drawAmount, isWild, isSkip, isReverse). -/
def ACTION_CARDS : List (String × CardType) :=
  [("skip", ⟨"skip", 0, false, true, false⟩),
   ("reverse", ⟨"reverse", 0, false, false, true⟩),
   ("draw 2", ⟨"draw 2", 2, false, true, false⟩),
   ("wild draw 4", ⟨"wild draw 4", 4, true, true, false⟩),
   ("wild", ⟨"wild", 0, true, false, false⟩)]

/-- card.py `Card.set_color`.  `typeAttr` is the state of the instance
attribute `self.type` at call time: `none` means the attribute has not been
assigned yet (reading it raises `AttributeError`).  `curColor` is the
current value of `self.color` (`none` is Python `None`; mutating
`None.name` raises `AttributeError`).  For a string colour the source first
evaluates `self.type.isWild`; inside `Card.__init__` the `type` attribute is
assigned only after `set_color` returns, so that read raises.  The `except
KeyError` handler around the `Card.COLORS` lookup re-raises `ValueError`
(the InvalidCardSpec error of the spec). -/
def setColorE (typeAttr : Option CardType) (curColor : Option CardColor)
    (color : String ⊕ CardColor) : Except PyErr CardColor :=
  match color with
  | .inr c => .ok c
  | .inl s =>
    match typeAttr with
    | none => .error .attributeError
    | some t =>
      if t.isWild then
        match curColor with
        | none => .error .attributeError
        | some c => .ok { c with name := s }
      else
        match COLORS.lookup s with
        | some c => .ok c
        | none => .error .valueError

/-- card.py `Card.set_type` for a string (or stringified int) argument: a
digit string makes a fresh number `CardType`; otherwise the
`Card.ACTION_CARDS` lookup re-raises `ValueError` on `KeyError`. -/
def setTypeE (cardType : String) : Except PyErr CardType :=
  if pyIsDigit cardType then .ok ⟨cardType, 0, false, false, false⟩
  else
    match ACTION_CARDS.lookup cardType with
    | some t => .ok t
    | none => .error .valueError

/-- card.py `Card.__init__`: assigns `self.color = None`, calls
`set_color(color)` (with the `type` attribute still unassigned), then
assigns `self.type = None`, calls `set_type(cardType)`, and finally stores
the rule additions (already converted to a set here; the `assert` over an
iterable argument cannot fire for a set of naturals). -/
def mkCardE (color : String ⊕ CardColor) (cardType : String)
    (ruleAdditions : Finset Nat) : Except PyErr Card := do
  let c ← setColorE none none color
  let t ← setTypeE cardType
  .ok ⟨c, t, ruleAdditions⟩

/- ------------------------------------------------------------------
deck.py: Deck.fill, Deck.deal, Deck.append
------------------------------------------------------------------ -/

/-- deck.py `Deck.fill`, the `numbers` list: `[0] + list(range(1, 9)) * 2 +
[9]`. -/
def fillNumbers : List Nat :=
  [0] ++ List.range' 1 8 ++ List.range' 1 8 ++ [9]

/-- deck.py `Deck.fill`: builds the full 112-card deck.  Its very first step
constructs `Card("wild", "wild", 0)`, whose `__init__` raises
`AttributeError` (see `setColorE`), so every later step is unreachable; the
randomized rule-addition sampling and the final `random.shuffle` of that
dead region are therefore not modelled. -/
def fillE : Except PyErr (List Card) := do
  let w1 ← mkCardE (.inl "wild") "wild" {0}
  let w2 ← mkCardE (.inl "wild") "wild" {1, 2, 3}
  let w3 ← mkCardE (.inl "wild") "wild draw 4" {0}
  let header := ([w1, w2, w3].map (fun w => [w, w, w])).flatten
  let colorBlocks ← ["red", "yellow", "green", "blue"].mapM (fun c => do
    let actions ← (["reverse", "skip", "draw 2"] ++ ["reverse", "skip", "draw 2"]).mapM
      (fun t => mkCardE (.inl c) t {0})
    let z ← mkCardE (.inl c) "0" {2}
    let n9 ← mkCardE (.inl c) "9" {0}
    let nums ← fillNumbers.mapM (fun i => mkCardE (.inl c) (toString i) {0})
    pure (actions ++ [z, n9] ++ nums))
  pure (header ++ colorBlocks.flatten)

/-- deck.py `Deck.deal(n)`: pops `n` cards off the end of the list (the top
of the deck); after each pop, if the deck became empty it calls
`Deck.fill` — which raises (see `fillE`).  Popping an empty deck raises
`IndexError`.  A non-positive `n` in Python gives an empty `range`, matching
`n = 0` here. -/
def dealE : List Card → Nat → Except PyErr (List Card × List Card)
  | pile, 0 => .ok ([], pile)
  | pile, n + 1 =>
    match pile.getLast? with
    | none => .error .indexError
    | some c => do
      let rest := pile.dropLast
      let rest2 ← if rest.isEmpty then fillE else pure rest
      let (ds, rest3) ← dealE rest2 n
      pure (c :: ds, rest3)

/-- deck.py `Deck.append` truncation: if the deck exceeds `maxCards`, keep
`self.cards[-maxCards:]`.  For `maxCards = 0` the Python slice `[-0:]` is
`[0:]`, the whole list, so nothing is dropped. -/
def truncToMax (l : List Card) (maxCards : Nat) : List Card :=
  if l.length > maxCards then
    if maxCards = 0 then l else l.drop (l.length - maxCards)
  else l

/-- deck.py `Deck.append` with a list argument: extend on top, then
truncate. -/
def Deck.appendMany (cards : List Card) (maxCards : Nat) (new : List Card) :
    List Card :=
  truncToMax (cards ++ new) maxCards

/-- deck.py `Deck.append` with a single card: push on top, then truncate. -/
def Deck.appendOne (cards : List Card) (maxCards : Nat) (c : Card) : List Card :=
  truncToMax (cards ++ [c]) maxCards

/-- deck.py `Deck.top_sum`: reads `cards[-1]` and `cards[-2]` (raising
`IndexError` when fewer than two cards are present) and returns their sum
when both type names are digits, else Python `None` (`none`). -/
def topSumE (cards : List Card) : Except PyErr (Option Int) := do
  let c1 ← pyGetE cards (-1)
  let c2 ← pyGetE cards (-2)
  if pyIsDigit c1.type.name && pyIsDigit c2.type.name then
    pure (some (pyStrToInt c1.type.name + pyStrToInt c2.type.name))
  else
    pure none

/- ------------------------------------------------------------------
move.py: the Move sandwich and its subset algebra
------------------------------------------------------------------ -/

/-- move.py `Move`: bottom / middle / top layers plus the exact-match
flag.  The container normalisation of the constructor is already applied: each
layer is the stored list of cards. -/
structure Move where
  bottom : List Card
  middle : List Card
  top : List Card
  enforceMatch : Bool
  deriving DecidableEq

/-- move.py `Move.__len__`. -/
def Move.length (m : Move) : Nat :=
  m.bottom.length + m.middle.length + m.top.length

/-- move.py `Move.tolist`: bottom ++ middle ++ top. -/
def Move.tolist (m : Move) : List Card :=
  m.bottom ++ m.middle ++ m.top

/-- Python `Card.__eq__` between two cards: type names equal, colour names
equal, and the rule-addition sets equal. -/
def cardBeq (a b : Card) : Bool :=
  a.type.name == b.type.name && a.color.name == b.color.name &&
    decide (a.ruleAdditions = b.ruleAdditions)

/-- Python `set(l1).issubset(l2)` under `Card.__eq__` (the hash is
consistent with equality on the cards the program builds): every member of
`l1` has an equal member in `l2`. -/
def setSubset (l1 l2 : List Card) : Bool :=
  l1.all (fun x => l2.any (cardBeq x))

/-- Python `set(l1) == set(l2)` under `Card.__eq__`: mutual inclusion. -/
def setEqB (l1 l2 : List Card) : Bool :=
  setSubset l1 l2 && setSubset l2 l1

/-- move.py `Move.can_replace(self, other)`: non-empty, exact-match moves
must coincide as sets with equal lengths, the card set must be a subset of
the card set of the other move, and bottom/top layers must be subsets unless the other
move leaves them unconstrained. -/
def Move.canReplace (m other : Move) : Bool :=
  if m.length != 0 then
    if (m.enforceMatch || other.enforceMatch) &&
        !(setEqB m.tolist other.tolist && (m.length == other.length)) then
      false
    else if !(setSubset m.tolist other.tolist) then false
    else
      ((other.bottom.length == 0) || setSubset m.bottom other.bottom) &&
        ((other.top.length == 0) || setSubset m.top other.top)
  else false

/-- move.py `Move(card)`: a one-card move with the card in the middle
layer. -/
def mkMove1 (c : Card) : Move :=
  ⟨[], [c], [], false⟩

/- ------------------------------------------------------------------
rule.py: Stacking
------------------------------------------------------------------ -/

/-- rule.py `Stacking` state: the condition set (a Python set of strings,
embedded as the list of its members), the accumulated stack count, and the
enabled flag. -/
structure StackingState where
  conditions : List String
  stackCount : Nat
  enabled : Bool
  deriving DecidableEq, Repr

/-- Python `card in self.conditions` where `conditions` is a set of
strings: set membership compares stored hashes before calling `__eq__`, and
the hash of a `Card` (a small int built from the type hash and the colour index)
never equals the randomized hash of a Python string, so the test is
`False`; `Card.__eq__(card, string)` is never reached. -/
def cardInStrSet (_card : Card) (_conds : List String) : Bool :=
  false

/-- rule.py `Stacking.can_stack` with `duplicate=False` (the only value the
reachable call sites pass; the `duplicate=True` branch would call the
nonexistent `Card.is_dupe` and raise `AttributeError`).  `top?` is the
result of `get_top()` (`none` is Python `None`).  The guard `(card and
top)` is Python keyword `and`: `card` is truthy, so the truth value of the guard
is exactly `top is not None`.  `card.type == top.type` compares type names
(`CardType.__eq__`); against `None` it compares with the string "None" and
is false. -/
def canStack (conds : List String) (top? : Option Card) (card : Card) : Bool :=
  if card.type.drawAmount > 0 then
    if top?.isSome && conds.contains "draw any" then true
    else if (match top? with
             | some top => card.type.name == top.type.name
             | none => false) && conds.contains "draw same" then true
    else false
  else if cardInStrSet card conds && top?.isSome then true
  else false

/-- The `for card in newCards` loop of rule.py `Stacking.update`: fold each
stackable draw amount of each card into the count; the first non-stackable card
zeroes the count and breaks (the diagnostic print is ignored). -/
def stackFold (conds : List String) (top? : Option Card) :
    List Card → Nat → Nat
  | [], count => count
  | c :: rest, count =>
    if canStack conds top? c then
      stackFold conds top? rest (count + c.type.drawAmount)
    else 0

/-- rule.py `Stacking.update(discard, cardsPlayed)`: re-derives `enabled`
from the condition set, returns unchanged when disabled, otherwise folds
`discard[-cardsPlayed:]` into the stack count, with the top card read from
the same deck argument.  (The engine actually passes the draw pile for this
argument — game.py line 154.) -/
def stackingUpdate (st : StackingState) (discardCards : List Card)
    (cardsPlayed : Int) : StackingState :=
  let enabled := !st.conditions.isEmpty
  let st' := { st with enabled := enabled }
  if !enabled then st'
  else
    let newCards := pySliceFrom discardCards (-cardsPlayed)
    let top? := discardCards.getLast?
    { st' with stackCount := stackFold st.conditions top? newCards st.stackCount }

/-- rule.py `Stacking.get_moves` with the top card already extracted from
the discard and the hand already a list of cards: when a stack exists and
the rule is enabled, one single-card `Move` per hand card that
`can_stack`s. -/
def stackingGetMoves (st : StackingState) (top : Card) (hand : List Card) :
    List Move :=
  if st.stackCount != 0 && st.enabled then
    (hand.filter (fun c => canStack st.conditions (some top) c)).map mkMove1
  else []

/-- Python `int(round(x))` on a float: round half to even, then truncate to
int (the identity on the already-integral result). -/
def pyRound (q : Rat) : Int :=
  let f := ⌊q⌋
  if q - f < 1 / 2 then f
  else if q - f > 1 / 2 then f + 1
  else if f.emod 2 = 0 then f else f + 1

/-- rule.py `Stacking.flush(player, attackMultiplier)`, with the
multiplier already unwrapped to its float value (the source unwraps an
`AttackMultiplier` object to `.multiplier`): when a stack is active the
player draws `int(round(stackCount * multiplier))` cards, else exactly 1;
in both cases `stackCount` is then set to 0.  `player.draw(n)` deals from
the pile into the hand (a negative rounded amount would give Python
`range(n)` empty, matching `Int.toNat`). -/
def flushE (st : StackingState) (mult : Rat) (pile hand : List Card) :
    Except PyErr (StackingState × List Card × List Card) := do
  let (drawn, rest) ←
    if st.stackCount != 0 then
      dealE pile (pyRound ((st.stackCount : Rat) * mult)).toNat
    else
      dealE pile 1
  pure ({ st with stackCount := 0 }, rest, hand ++ drawn)

/- ------------------------------------------------------------------
rule.py: SlapJacks state; game.py: the Game state and turn engine
------------------------------------------------------------------ -/

/-- rule.py `SlapJacks` mutable state: enabled flag, indices of players who
slapped, and whether a slap is currently due. -/
structure SlapState where
  enabled : Bool
  slapped : List Int
  shouldSlap : Bool
  deriving DecidableEq, Repr

/-- game.py `Game` state, restricted to the fields the turn engine touches.
Players are represented by their hands, in seat order (`Player.index` is
the seat position).  `toMove` is kept as a Python int (always reduced by
`% numPlayers` in `next`). -/
structure GameState where
  drawPile : List Card
  discard : List Card
  discardHeight : Nat
  hands : List (List Card)
  numPlayers : Nat
  toMove : Int
  direction : Int
  stacking : StackingState
  attackMultiplier : Rat
  drawToPlayEnabled : Bool
  swappyZeroEnabled : Bool
  swappySevenEnabled : Bool
  slapJacks : SlapState

/-- game.py `Game.next`: `toMove = (toMove + direction) % numPlayers`
(Python `%` on a positive modulus is `Int.emod`; a game always has at least
one player, so the modulus is nonzero). -/
def nextState (g : GameState) : GameState :=
  { g with toMove := (g.toMove + g.direction).emod (g.numPlayers : Int) }

/-- game.py `Game.cycle_hands`: saves the hand of seat 0, then runs
`for i in range(0, -direction*(numPlayers-1), -direction):
players[i].hand = players[i-direction].hand`, then puts the saved hand at
seat `direction`.  Indexing follows Python list semantics (`pyGetE` /
`pySetE`). -/
def cycleHandsE (hands : List α) (direction : Int) (numPlayers : Nat) :
    Except PyErr (List α) := do
  let hand0 ← pyGetE hands 0
  let idxs := pyRange1 0 (-direction * ((numPlayers : Int) - 1)) (-direction)
  let hs ← idxs.foldlM (fun hs i => do
    let v ← pyGetE hs (i - direction)
    pySetE hs i v) hands
  pySetE hs direction hand0

/-- game.py `Game.trade_hands(player1, player2)`: swap two hands through a
temporary, with Python index semantics. -/
def tradeHandsE (hands : List (List Card)) (p1 p2 : Int) :
    Except PyErr (List (List Card)) := do
  let tmp ← pyGetE hands p1
  let v ← pyGetE hands p2
  let hs ← pySetE hands p1 v
  pySetE hs p2 tmp

/-- rule.py `SwappyZero.update(game)`: when enabled and the top
card of the discard has type name "0", cycle all hands.  `get_top()` on an empty discard
returns `None` and the subsequent `.type` access raises. -/
def swappyZeroUpdateE (g : GameState) : Except PyErr GameState :=
  if g.swappyZeroEnabled then
    match g.discard.getLast? with
    | none => .error .attributeError
    | some top =>
      if top.type.name == "0" then do
        let hands ← cycleHandsE g.hands g.direction g.numPlayers
        pure { g with hands := hands }
      else pure g
  else pure g

/-- rule.py `SwappySeven.update(game)`: when enabled and the top card has
type name "7", trade the hand of the mover with the externally chosen player
`oracle` (the parsed result of the blocking `input()` call). -/
def swappySevenUpdateE (g : GameState) (oracle : Int) :
    Except PyErr GameState :=
  if g.swappySevenEnabled then
    match g.discard.getLast? with
    | none => .error .attributeError
    | some top =>
      if top.type.name == "7" then do
        let hands ← tradeHandsE g.hands g.toMove oracle
        pure { g with hands := hands }
      else pure g
  else pure g

/-- rule.py `SlapJacks.update(discard, players)`: when enabled, first
penalise every player whose index is missing from `slapped` (2 cards each)
if someone slapped while a slap was due, then reset `slapped` and recompute
`shouldSlap` from `discard.top_sum() == 10`.  (The engine passes the draw
pile for the `discard` argument — game.py line 161.) -/
def slapJacksUpdateE (g : GameState) : Except PyErr GameState :=
  if !g.slapJacks.enabled then pure g
  else do
    let g1 ←
      if !g.slapJacks.slapped.isEmpty && g.slapJacks.shouldSlap then
        (List.range g.hands.length).foldlM (fun gg (i : Nat) =>
          if (i : Int) ∈ gg.slapJacks.slapped then pure gg
          else do
            let (drawn, pile) ← dealE gg.drawPile 2
            pure { gg with
                   drawPile := pile,
                   hands := gg.hands.set i (gg.hands.getD i [] ++ drawn) }) g
      else pure g
    let ts ← topSumE g1.drawPile
    pure { g1 with
           slapJacks := { g1.slapJacks with
                          slapped := [], shouldSlap := ts == some 10 } }

/-- game.py `Game._apply_rules`: stacking update (fed the draw pile and the
discard-length delta), then SwappyZero, SwappySeven, SlapJacks (fed the
draw pile). -/
def applyRulesE (g : GameState) (oracle : Int) : Except PyErr GameState := do
  let g1 := { g with
              stacking := stackingUpdate g.stacking g.drawPile
                ((g.discard.length : Int) - (g.discardHeight : Int)) }
  let g2 ← swappyZeroUpdateE g1
  let g3 ← swappySevenUpdateE g2 oracle
  slapJacksUpdateE g3

/-- The direction flip of game.py `Game._apply_action_cards`: reverse the
turn order when the top card is a reverse type. -/
def flipRev (top : Card) (g : GameState) : GameState :=
  if top.type.isReverse then { g with direction := -g.direction } else g

/-- game.py `Game._apply_action_cards`: read the top card (raising on an
empty discard, where `get_top()` is `None`), flip the direction on a
reverse (a reverse also counts as a skip with exactly 2 players), and
advance the turn once more — applying the pending skip — only when
`skip and not (bool(self.stacking) and self.stacking.stackCount)` holds,
i.e. when no enabled, nonzero stack is pending.  `Stacking.get_moves` is
not consulted and nobody draws here. -/
def applyActionCardsE (g : GameState) : Except PyErr GameState :=
  match g.discard.getLast? with
  | none => .error .attributeError
  | some top =>
    let g2 := flipRev top g
    let skip := top.type.isSkip || (top.type.isReverse && (g2.numPlayers == 2))
    if skip && !(g2.stacking.enabled && !(g2.stacking.stackCount == 0)) then
      pure (nextState g2)
    else pure g2

/-- game.py `Game.update`: when the discard grew since the last check (the
player played), run the rule pipeline and the action-card phase; in every
case advance `toMove` once and record the new discard length. -/
def updateE (g : GameState) (oracle : Int) : Except PyErr GameState :=
  if g.discardHeight < g.discard.length then do
    let g1 ← applyRulesE g oracle
    let g2 ← applyActionCardsE g1
    let g3 := nextState g2
    pure { g3 with discardHeight := g3.discard.length }
  else
    let g3 := nextState g
    pure { g3 with discardHeight := g3.discard.length }

/-- game.py `Game.draw`: the player at `toMove` is flushed (drawing the
stack, or 1 card when no stack is active), and the turn passes on when
they were attacked or draw-to-play is off. -/
def gameDrawE (g : GameState) : Except PyErr GameState := do
  let wasAttacked := g.stacking.stackCount > 0
  let hand ← pyGetE g.hands g.toMove
  let (st, pile, hand2) ← flushE g.stacking g.attackMultiplier g.drawPile hand
  let hands ← pySetE g.hands g.toMove hand2
  let g1 := { g with stacking := st, drawPile := pile, hands := hands }
  if wasAttacked || !g1.drawToPlayEnabled then pure (nextState g1)
  else pure g1

/- ------------------------------------------------------------------
rule_slot.py / rule_cards.py: the rule-card meta-layer
------------------------------------------------------------------ -/

/-- A rule card as far as `RuleSlot.__init__` inspects it before raising:
its name and active flag. -/
structure RuleCardV where
  ruleName : String
  isActive : Bool
  deriving DecidableEq, Repr

/-- rule_slot.py `RuleSlot.__init__(ruleCards, topActive)`.  With
`ruleCards = None` the loop header `range(len(ruleCards))` evaluates
`len(None)` and raises `TypeError`.  With an empty list the loop is empty
and `self.ruleCards[-1]` raises `IndexError`.  With a non-empty list the
first loop iteration calls `ruleCard.set_active(False)`, but every
`set_active` in rule_cards.py requires a positional `slot` argument, so
that call raises `TypeError` as well.  No initialisation path returns. -/
def ruleSlotInitE (ruleCards : Option (List RuleCardV)) (_topActive : Bool) :
    Except PyErr (List RuleCardV × Bool) :=
  match ruleCards with
  | none => .error .typeError
  | some rcs =>
    if rcs.isEmpty then .error .indexError
    else .error .typeError

/-- game.py `Game.reset_rules`: after clearing the total-chaos flag it
builds `self.ruleDeck = [RuleSlot(None, True) for _ in range(4)] + ...`;
the very first `RuleSlot(None, True)` raises `TypeError` (see
`ruleSlotInitE`), so the rest of the deck construction, the shuffle, and
the slot dealing are unreachable. -/
def resetRulesE : Except PyErr Unit := do
  let _ ← ruleSlotInitE none true
  pure ()

/-- rule_cards.py `TotalChaosCard` mutable state. -/
structure TotalChaosState where
  isActive : Bool
  lives : Int
  deriving DecidableEq, Repr

/-- The insertion-ordered keys of the `Game.rules` registry dict built in
`Game.__init__`. -/
def gameRulesKeys : List String :=
  ["stacking", "slap jacks", "swappy 0", "swappy 7", "depleters",
   "attack multiplier", "draw to play", "revives", "jump ins", "math",
   "silent 6s"]

/-- Python 2-tuple unpacking of a string (`a, b = s` iterates the characters of the
string): succeeds only when the string has exactly two characters,
otherwise raises `ValueError`. -/
def pyUnpack2 (s : String) : Except PyErr (Char × Char) :=
  match s.data with
  | [a, b] => .ok (a, b)
  | _ => .error .valueError

/-- rule_cards.py `TotalChaosCard.set_active(isActive, slot)`.  Activating
from the inactive state first assigns `isActive = True` and `lives = 3`
(assignments lost to the caller when the exception propagates) and then
runs `for _, rule in self._game.rules:` — iterating a dict yields its KEYS,
and 2-tuple unpacking of the first key "stacking" (8 characters) raises
`ValueError`, so the rule enabling, the condition widening, the multiplier
reset and the slot discarding are all unreachable (the `.ok` payload below
is that unreachable continuation, not modelled further).  While active, an
activation adds a life and a deactivation removes one; at `lives <= 0` the
card deactivates and calls `Game.reset_rules`, which raises `TypeError`
(see `resetRulesE`). -/
def totalChaosSetActiveE (card : TotalChaosState) (isActive : Bool)
    (g : GameState) : Except PyErr (TotalChaosState × GameState) :=
  if isActive && !card.isActive then do
    let _ ← gameRulesKeys.foldlM (fun _ k => do
      let _ ← pyUnpack2 k
      pure ()) ()
    pure ({ card with isActive := true, lives := 3 }, g)
  else if card.isActive then
    let lives := card.lives + (if isActive then 1 else -1)
    if lives ≤ 0 then do
      let _ ← resetRulesE
      pure ({ card with isActive := false, lives := lives }, g)
    else pure ({ card with lives := lives }, g)
  else pure (card, g)

/-- game.py `Game.__init__`, in statement order: `self.drawPile = Deck()`
(which runs `Deck.fill` and raises `AttributeError` at its first card — see
`fillE`), then the discard pile with one dealt card, the players each
drawing 7, `self.ruleDiscard = RuleSlot([], False)`, and finally
`self.reset_rules()`.  (The rule-object constructions in between are pure
and the initial `random.shuffle(players)` does not affect the raised
error; both are dead code past the first statement.) -/
def gameInitE (players : List String) : Except PyErr Unit := do
  let drawPile ← fillE
  let (dealt, drawPile2) ← dealE drawPile 1
  let _discard := Deck.appendMany [] 2 dealt
  let _ ← players.foldlM (fun pile _p => do
    let (_hand, pile2) ← dealE pile 7
    pure pile2) drawPile2
  let _ ← ruleSlotInitE (some []) false
  resetRulesE

/- ------------------------------------------------------------------
Concrete states for the turn-engine claims
------------------------------------------------------------------ -/

/-- A 3-player state right after player 0 played the red draw-2: discard
holds just that card (the baseline height is 0, so one card was played),
the top of the draw pile is also a red draw-2 (the card `Stacking.update` will
actually inspect, since the engine hands it the draw pile), stacking is
enabled with condition "draw same" and an empty stack, and every other
rule is off.  Player 1 holds only a blue 5 — no stacking card. -/
def gC2 : GameState :=
  { drawPile := [cardBlue5, cardRedDraw2]
    discard := [cardRedDraw2]
    discardHeight := 0
    hands := [[cardRedFive], [cardBlue5], [cardGreen7]]
    numPlayers := 3
    toMove := 0
    direction := 1
    stacking := ⟨["draw same"], 0, true⟩
    attackMultiplier := 1
    drawToPlayEnabled := false
    swappyZeroEnabled := false
    swappySevenEnabled := false
    slapJacks := ⟨false, [], false⟩ }

/-- `gC2` after the rules phase: the stacking update folded the draw-2 into
the stack (count 2); nothing else changed. -/
def gC2afterRules : GameState :=
  { gC2 with stacking := ⟨["draw same"], 2, true⟩ }

/-- `gC2` after the whole `Game.update`: stack count 2 survives, the skip
was cancelled, `toMove` advanced exactly once to player 1, and the discard
height baseline became 1.  Hands are untouched. -/
def gC2afterUpdate : GameState :=
  { gC2 with
    stacking := ⟨["draw same"], 2, true⟩
    toMove := 1
    discardHeight := 1 }

/-- C1: the code deems the pair (red 3, blue 5) compatible — `Card.__and__`
returns the truthy object `other.type` — although they share no colour, share
no type, and neither is wild, so the claimed compatibility relation says they
are incompatible.  The slip is `self.type and other.type` (Python boolean
`and`) where `self.type & other.type` (`CardType.__and__`) was intended. -/
theorem c1_and_always_truthy :
    (cardAnd cardRedThree cardBlue5).truthy = true ∧
      compatSpec cardRedThree cardBlue5 = false :=
  ⟨rfl, rfl⟩

/- ------------------------------------------------------------------
Helper lemmas
------------------------------------------------------------------ -/

/-- `Card.__eq__` is reflexive. -/
lemma cardBeq_refl (c : Card) : cardBeq c c = true := by
  simp [cardBeq]

/-- Pythonic card-set inclusion is reflexive. -/
lemma setSubset_refl (l : List Card) : setSubset l l = true := by
  simp only [setSubset, List.all_eq_true, List.any_eq_true]
  intro x hx
  exact ⟨x, hx, cardBeq_refl x⟩

/-- `Deck.deal` succeeds and is exact while it does not exhaust the deck:
drawing `n < length` cards yields exactly `n` cards and leaves the rest. -/
lemma dealE_ok (n : Nat) : ∀ pile : List Card, n < pile.length →
    ∃ drawn rest, dealE pile n = .ok (drawn, rest) ∧
      drawn.length = n ∧ rest.length = pile.length - n := by
  induction n with
  | zero => exact fun pile _ => ⟨[], pile, rfl, rfl, rfl⟩
  | succ k ih =>
    intro pile h
    have hne : pile ≠ [] := by
      intro e
      subst e
      simp at h
    obtain ⟨c, hc⟩ : ∃ c, pile.getLast? = some c := by
      cases hp : pile.getLast? with
      | none => exact absurd (List.getLast?_eq_none_iff.mp hp) hne
      | some c => exact ⟨c, rfl⟩
    have hdl : pile.dropLast.length = pile.length - 1 := by
      simp [List.length_dropLast]
    have hie : pile.dropLast.isEmpty = false := by
      cases hdp : pile.dropLast with
      | nil =>
        rw [hdp] at hdl
        simp at hdl
        omega
      | cons a t => rfl
    obtain ⟨ds, rest3, hd, hlen, hrlen⟩ := ih pile.dropLast (by omega)
    refine ⟨c :: ds, rest3, ?_, by simp [hlen], by omega⟩
    simp [dealE, hc, hie, hd]

/-- `pyRound` of a nonnegative rational is nonnegative. -/
lemma pyRound_nonneg (q : Rat) (hq : 0 ≤ q) : 0 ≤ pyRound q := by
  have hf : (0 : Int) ≤ ⌊q⌋ := Int.floor_nonneg.mpr hq
  simp only [pyRound]
  split_ifs <;> omega

/-- The truncation step of `Deck.append` keeps the bound and only drops from
the bottom, provided the capacity is positive. -/
lemma truncToMax_spec (l : List Card) (m : Nat) (h : 0 < m) :
    (truncToMax l m).length ≤ m ∧ truncToMax l m <:+ l := by
  unfold truncToMax
  by_cases hl : l.length > m
  · rw [if_pos hl, if_neg (Nat.pos_iff_ne_zero.mp h)]
    refine ⟨?_, List.drop_suffix _ _⟩
    simp only [List.length_drop]
    omega
  · rw [if_neg hl]
    exact ⟨by omega, List.suffix_refl l⟩

/- ------------------------------------------------------------------
Claim theorems
------------------------------------------------------------------ -/

/-- C3: `Deck.deal` is exact while the deck lasts (popping from the top),
but the transparent mid-draw refill raises instead of refilling: dealing the
last card triggers `Deck.fill`, whose first `Card` construction raises
`AttributeError`, so `deal(1)` on a one-card deck raises rather than
returning that card. -/
theorem c3_deal_raises_on_refill :
    dealE [cardRedFive, cardBlue5] 1 = .ok ([cardBlue5], [cardRedFive]) ∧
    dealE [cardBlue5] 1 = .error .attributeError :=
  ⟨rfl, rfl⟩

/-- C5: `TotalChaosCard.set_active(True)` from the inactive state raises
`ValueError` — `for _, rule in self._game.rules` iterates the string keys of the dict and 2-tuple unpacking of "stacking" fails — so none of the claimed
effects (enabling all rules, widening conditions, resetting the multiplier,
discarding slots) happen; and a deactivation that brings `lives` to 0 calls
`Game.reset_rules`, which raises `TypeError` at `RuleSlot(None, True)`. -/
theorem c5_total_chaos_raises :
    totalChaosSetActiveE ⟨false, 3⟩ true gC2 = .error .valueError ∧
    totalChaosSetActiveE ⟨true, 1⟩ false gC2 = .error .typeError :=
  ⟨rfl, rfl⟩

/-- C6: `Game.cycle_hands` with 4 players and direction +1 rotates the hands
one seat in the turn direction: afterwards seat i holds the pre-call hand of
seat (i - 1) mod 4, despite the sequential in-place overwrites. -/
theorem c6_cycle_hands_rotates (α : Type) (h0 h1 h2 h3 : α) :
    cycleHandsE [h0, h1, h2, h3] 1 4 = .ok [h3, h0, h1, h2] :=
  rfl

/-- C7: constructing a card from the recognized names red / 5 does not
succeed, and constructing one from the unrecognized colour name purple does
not raise the InvalidCardSpec `ValueError`: both raise `AttributeError`,
because `Card.__init__` calls `set_color` while the `type` attribute is
still unassigned. -/
theorem c7_card_construction_raises :
    mkCardE (.inl "red") "5" {0} = .error .attributeError ∧
    mkCardE (.inl "purple") "5" {0} = .error .attributeError :=
  ⟨rfl, rfl⟩

/-- C10: top-level construction is not total: every card built from a string
colour raises `AttributeError` (set_color reads the unassigned `type`
attribute); `RuleSlot(None, True)` raises `TypeError` (`len(None)`) and
`RuleSlot([], False)` raises `IndexError` (indexing `[-1]` of an empty
list); consequently `Game.__init__` raises for every player list, already at
its first statement `Deck()`. -/
theorem c10_constructors_not_total :
    (∀ (color cardType : String) (r : Finset Nat),
      mkCardE (.inl color) cardType r = .error .attributeError) ∧
    ruleSlotInitE none true = .error .typeError ∧
    ruleSlotInitE (some []) false = .error .indexError ∧
    ∀ players : List String, gameInitE players = .error .attributeError :=
  ⟨fun _ _ _ => rfl, rfl, rfl, fun _ => rfl⟩

/-- C9: `Move.can_replace` is reflexive on non-empty moves, whatever the
`enforceMatch` flag: a move is a subset of itself, coincides with itself as
a set with equal length, and its bottom/top layers are subsets of
themselves. -/
theorem c9_can_replace_refl (m : Move) (h : 0 < m.length) :
    m.canReplace m = true := by
  have hne : (m.length != 0) = true := by
    simp only [bne_iff_ne, ne_eq]
    omega
  simp [Move.canReplace, hne, setEqB, setSubset_refl]

/-- Witness for C9 at a concrete one-card exact-match move. -/
theorem c9_can_replace_witness :
    0 < (⟨[], [cardBlue5], [], true⟩ : Move).length ∧
    (⟨[], [cardBlue5], [], true⟩ : Move).canReplace ⟨[], [cardBlue5], [], true⟩ = true :=
  ⟨by decide, c9_can_replace_refl ⟨[], [cardBlue5], [], true⟩ (by decide)⟩

/-- C8 counterexample: with capacity 0 (the claim quantifies over every
capacity), appending one card leaves the deck at length 1 > 0, because the
Python truncation slice `cards[-0:]` is the whole list. -/
theorem c8_capacity_zero :
    Deck.appendOne [] 0 cardBlue5 = [cardBlue5] ∧
    ¬((Deck.appendOne [] 0 cardBlue5).length ≤ 0) :=
  ⟨rfl, by decide⟩

/-- C8 amended: for every positive capacity, appending a list of cards or a
single card leaves at most `maxCards` cards, and the survivors are a suffix
of the appended deck (the oldest, bottom entries are the ones dropped). -/
theorem c8_append_bounded (cards new : List Card) (c : Card) (maxCards : Nat)
    (h : 0 < maxCards) :
    ((Deck.appendMany cards maxCards new).length ≤ maxCards ∧
      Deck.appendMany cards maxCards new <:+ cards ++ new) ∧
    ((Deck.appendOne cards maxCards c).length ≤ maxCards ∧
      Deck.appendOne cards maxCards c <:+ cards ++ [c]) :=
  ⟨truncToMax_spec (cards ++ new) maxCards h,
   truncToMax_spec (cards ++ [c]) maxCards h⟩

/-- Witness for C8 at capacity 2. -/
theorem c8_append_witness :
    0 < 2 ∧
    (((Deck.appendMany [cardRedFive] 2 [cardBlue5, cardGreen7]).length ≤ 2 ∧
      Deck.appendMany [cardRedFive] 2 [cardBlue5, cardGreen7] <:+
        [cardRedFive] ++ [cardBlue5, cardGreen7]) ∧
     ((Deck.appendOne [cardRedFive] 2 cardBlue5).length ≤ 2 ∧
      Deck.appendOne [cardRedFive] 2 cardBlue5 <:+ [cardRedFive] ++ [cardBlue5])) :=
  ⟨by decide,
   c8_append_bounded [cardRedFive] [cardBlue5, cardGreen7] cardBlue5 2 (by decide)⟩

/-- C4: `Stacking.flush` makes the player draw `round(stackCount *
multiplier)` cards when a stack is active and exactly 1 card when it is
not, and always leaves `stackCount = 0` — provided the draw pile can serve
the draw without triggering the (raising) refill. -/
theorem c4_flush_draws (st : StackingState) (mult : Rat) (pile hand : List Card)
    (hmult : 0 ≤ mult)
    (hpile : (if st.stackCount = 0 then 1
              else (pyRound ((st.stackCount : Rat) * mult)).toNat) < pile.length) :
    ∃ rest hand2,
      flushE st mult pile hand = .ok ({ st with stackCount := 0 }, rest, hand2) ∧
      (hand2.length : Int) = hand.length +
        (if st.stackCount = 0 then 1 else pyRound ((st.stackCount : Rat) * mult)) := by
  by_cases h0 : st.stackCount = 0
  · obtain ⟨ds, rest, hd, hlen, _⟩ := dealE_ok 1 pile (by simpa [h0] using hpile)
    refine ⟨rest, hand ++ ds, ?_, ?_⟩
    · simp [flushE, h0, hd]
    · simp [h0, hlen]
  · have hnn : 0 ≤ pyRound ((st.stackCount : Rat) * mult) :=
      pyRound_nonneg _ (mul_nonneg (Nat.cast_nonneg _) hmult)
    obtain ⟨ds, rest, hd, hlen, _⟩ :=
      dealE_ok (pyRound ((st.stackCount : Rat) * mult)).toNat pile
        (by simpa [h0] using hpile)
    refine ⟨rest, hand ++ ds, ?_, ?_⟩
    · simp [flushE, h0, hd]
    · simp only [h0, if_false, List.length_append, hlen]
      push_cast
      rw [Int.toNat_of_nonneg hnn]

/-- Witness for C4: stack of 3 under multiplier 3/2 draws round(4.5) = 4
cards from a 6-card pile. -/
theorem c4_flush_witness :
    ((0 : Rat) ≤ 3 / 2 ∧
     (if (⟨["draw same"], 3, true⟩ : StackingState).stackCount = 0 then 1
      else (pyRound (((⟨["draw same"], 3, true⟩ : StackingState).stackCount : Rat) *
        (3 / 2))).toNat) < (List.replicate 6 cardBlue5).length) ∧
    ∃ rest hand2,
      flushE ⟨["draw same"], 3, true⟩ (3 / 2) (List.replicate 6 cardBlue5) [] =
        .ok (⟨["draw same"], 0, true⟩, rest, hand2) ∧
      (hand2.length : Int) = (([] : List Card).length : Int) +
        (if (⟨["draw same"], 3, true⟩ : StackingState).stackCount = 0 then 1
         else pyRound (((⟨["draw same"], 3, true⟩ : StackingState).stackCount : Rat) *
           (3 / 2))) := by
  have hm : (0 : Rat) ≤ 3 / 2 := by norm_num
  have hr : pyRound (((⟨["draw same"], 3, true⟩ : StackingState).stackCount : Rat) *
      (3 / 2)) = 4 := by
    have hq : (((⟨["draw same"], 3, true⟩ : StackingState).stackCount : Rat) * (3 / 2)) =
        9 / 2 := by norm_num
    rw [pyRound, hq]
    norm_num
  have hp : (if (⟨["draw same"], 3, true⟩ : StackingState).stackCount = 0 then 1
      else (pyRound (((⟨["draw same"], 3, true⟩ : StackingState).stackCount : Rat) *
        (3 / 2))).toNat) < (List.replicate 6 cardBlue5).length := by
    rw [if_neg (by decide), hr]
    simp
  exact ⟨⟨hm, hp⟩, c4_flush_draws ⟨["draw same"], 3, true⟩ (3 / 2)
    (List.replicate 6 cardBlue5) [] hm hp⟩

/-- C2 counterexample: a concrete post-play state where the stack is active
(count 2) and the player the turn advances to (player 1, holding only a
blue 5) has no compatible stacking card — `Stacking.getMoves` is empty.
The claim says `Game.update` then forces that player through
`Stacking.flush` (drawing stackCount times multiplier cards) and resets the
stack to 0; the code does neither: after `update` the stack count is still
2, the hand of player 1 is untouched, and `toMove` advanced exactly once (the
pending skip of the draw-2 was cancelled merely because a stack is active,
without consulting the hand). -/
theorem c2_no_forced_flush :
    updateE gC2 0 = .ok gC2afterUpdate ∧
    gC2afterUpdate.toMove = 1 ∧
    gC2afterUpdate.stacking.stackCount = 2 ∧
    gC2afterUpdate.discard.getLast? = some cardRedDraw2 ∧
    stackingGetMoves gC2afterUpdate.stacking cardRedDraw2
      (gC2afterUpdate.hands.getD 1 []) = [] ∧
    gC2afterUpdate.hands = gC2.hands :=
  ⟨rfl, rfl, rfl, rfl, rfl, rfl⟩

/-- C2 amended: in `Game.update` after a play, once the rules phase has
left an enabled stack with nonzero count, the action-card phase cancels any
pending skip unconditionally — it never consults `Stacking.getMoves` or any
hand — and performs no flush: the whole `update` changes neither the
stacking state nor any hand nor the draw pile past the rules phase, and
advances `toMove` exactly once (after the possible direction flip of a
reverse top card). -/
theorem c2_update_skip_and_stack (g : GameState) (o : Int) (g1 : GameState)
    (top : Card)
    (hplay : g.discardHeight < g.discard.length)
    (hrules : applyRulesE g o = .ok g1)
    (htop : g1.discard.getLast? = some top)
    (hen : g1.stacking.enabled = true)
    (hct : g1.stacking.stackCount ≠ 0) :
    applyActionCardsE g1 = .ok (flipRev top g1) ∧
    updateE g o = .ok { nextState (flipRev top g1) with
                        discardHeight := (nextState (flipRev top g1)).discard.length } ∧
    (flipRev top g1).stacking = g1.stacking ∧
    (flipRev top g1).hands = g1.hands ∧
    (flipRev top g1).drawPile = g1.drawPile ∧
    (nextState (flipRev top g1)).toMove =
      (g1.toMove + (flipRev top g1).direction).emod (g1.numPlayers : Int) := by
  have hstk : (flipRev top g1).stacking = g1.stacking := by
    unfold flipRev
    split <;> rfl
  have hhands : (flipRev top g1).hands = g1.hands := by
    unfold flipRev
    split <;> rfl
  have hpile : (flipRev top g1).drawPile = g1.drawPile := by
    unfold flipRev
    split <;> rfl
  have hcond : ((flipRev top g1).stacking.enabled &&
      !((flipRev top g1).stacking.stackCount == 0)) = true := by
    rw [hstk, hen]
    simp [hct]
  have hact : applyActionCardsE g1 = .ok (flipRev top g1) := by
    unfold applyActionCardsE
    rw [htop]
    simp only [hcond, Bool.not_true, Bool.and_false, Bool.if_false_right,
      Bool.and_true]
    rfl
  have hmv : (flipRev top g1).toMove = g1.toMove := by
    unfold flipRev
    split <;> rfl
  have hnp : (flipRev top g1).numPlayers = g1.numPlayers := by
    unfold flipRev
    split <;> rfl
  refine ⟨hact, ?_, hstk, hhands, hpile, ?_⟩
  · unfold updateE
    rw [if_pos hplay, hrules]
    show (applyActionCardsE g1).bind _ = _
    rw [hact]
    rfl
  · unfold nextState
    rw [hmv, hnp]

/-- Witness for the amended C2 at the concrete state `gC2`. -/
theorem c2_update_witness :
    (gC2.discardHeight < gC2.discard.length ∧
     applyRulesE gC2 0 = .ok gC2afterRules ∧
     gC2afterRules.discard.getLast? = some cardRedDraw2 ∧
     gC2afterRules.stacking.enabled = true ∧
     gC2afterRules.stacking.stackCount ≠ 0) ∧
    (applyActionCardsE gC2afterRules = .ok (flipRev cardRedDraw2 gC2afterRules) ∧
     updateE gC2 0 = .ok { nextState (flipRev cardRedDraw2 gC2afterRules) with
       discardHeight := (nextState (flipRev cardRedDraw2 gC2afterRules)).discard.length } ∧
     (flipRev cardRedDraw2 gC2afterRules).stacking = gC2afterRules.stacking ∧
     (flipRev cardRedDraw2 gC2afterRules).hands = gC2afterRules.hands ∧
     (flipRev cardRedDraw2 gC2afterRules).drawPile = gC2afterRules.drawPile ∧
     (nextState (flipRev cardRedDraw2 gC2afterRules)).toMove =
       (gC2afterRules.toMove + (flipRev cardRedDraw2 gC2afterRules).direction).emod
         (gC2afterRules.numPlayers : Int)) :=
  ⟨⟨by decide, rfl, rfl, rfl, by decide⟩,
   c2_update_skip_and_stack gC2 0 gC2afterRules cardRedDraw2
     (by decide) rfl rfl rfl (by decide)⟩
